import Mathlib

/-!
Shallow embedding of the input-unification core of the repository:
`GamepadManager` (src/gamepad.js), `InputManager` (src/input.js), driven once
per animation frame by `tick(ts)` in src/main.js, which calls
`inputManager.update(ts)`.

Modelling choices:
* analog axes and millisecond timestamps are rationals (the JS numbers are
  floats; every operation the code performs on them here is comparison,
  absolute value and addition of constants, which ℚ models exactly);
* the raw per-frame hardware snapshot (`navigator.getGamepads()` contents,
  current keyboard key state) is an explicit input to each update step;
* button arrays are `List Bool` indexed exactly like the JS arrays, with
  out-of-range reads defaulting to `false` (JS `undefined` is falsy);
* event emission (`this.emit(...)`) is modelled by returning the list of
  events produced during one `update` call, in emission order.
-/

/-- Navigation direction (the strings 'up' | 'down' | 'left' | 'right'). -/
inductive Direction
  | up
  | down
  | left
  | right
  deriving DecidableEq

/-- Mode carried by a nav event: 'edge' or 'repeat' (src/input.js:137,142). -/
inductive NavMode
  | edge
  | rpt
  deriving DecidableEq

/-- Payload of a `nav` emission: `{ dir, mode }` (src/input.js:137,142). -/
structure NavEvent where
  dir : Direction
  mode : NavMode
  deriving DecidableEq

/-- The `source` field of a `select` emission (src/input.js:96). -/
inductive EvSource
  | keyboard
  | gamepad
  deriving DecidableEq

/-- An event emitted by `InputManager.update`. -/
inductive InputEvent
  | nav (e : NavEvent)
  | select (source : EvSource)
  deriving DecidableEq

/-- `this._firstDelay = 220` (src/input.js:23). -/
def firstDelay : ℚ := 220

/-- `this._repeatDelay = 85` (src/input.js:24). -/
def repeatDelay : ℚ := 85

/-- `this._deadzone = 0.32` (src/input.js:25), used by `_getDominantDirFromAxes`. -/
def navDeadzone : ℚ := 32 / 100

/-- The edge/repeat timer state of `InputManager`: fields `_activeDir`
(src/input.js:21) and `_nextRepeatAt` (src/input.js:22). -/
structure TimerState where
  activeDir : Option Direction
  nextRepeatAt : ℚ
  deriving DecidableEq

/-- Constructor values `_activeDir = null`, `_nextRepeatAt = 0`. -/
def initTimer : TimerState := ⟨none, 0⟩

/-- The repeat/edge handling block of `InputManager.update`
(src/input.js:126-144), as a function of the previous timer state, the
resolved direction of the frame and the frame timestamp.  Returns the new
timer state and the nav event emitted this frame, if any. -/
def timerStep (s : TimerState) (dir : Option Direction) (ts : ℚ) :
    TimerState × Option NavEvent :=
  match dir with
  | none => (⟨none, 0⟩, none)
  | some d =>
    if s.activeDir ≠ some d then
      (⟨some d, ts + firstDelay⟩, some ⟨d, NavMode.edge⟩)
    else if s.nextRepeatAt ≤ ts then
      (⟨some d, ts + repeatDelay⟩, some ⟨d, NavMode.rpt⟩)
    else
      (s, none)

/-- One frame of input to the edge/repeat timer: the timestamp passed to
`update` and the direction resolved for that frame. -/
structure NavFrame where
  ts : ℚ
  dir : Option Direction
  deriving DecidableEq

def defaultNavFrame : NavFrame := ⟨0, none⟩

/-- The per-frame nav emissions of the timer over a sequence of frames
(entry `i` is the event emitted while processing frame `i`, if any). -/
def runTimer (s : TimerState) : List NavFrame → List (Option NavEvent)
  | [] => []
  | f :: fs => (timerStep s f.dir f.ts).2 :: runTimer (timerStep s f.dir f.ts).1 fs

/-- The timer state after processing a sequence of frames. -/
def timerFinal (s : TimerState) : List NavFrame → TimerState
  | [] => s
  | f :: fs => timerFinal (timerStep s f.dir f.ts).1 fs

/-- `InputManager._getDominantDirFromAxes(ax, ay)` (src/input.js:71-76). -/
def getDominantDirFromAxes (ax ay : ℚ) : Option Direction :=
  if |ax| < navDeadzone ∧ |ay| < navDeadzone then none
  else if |ay| ≤ |ax| then some (if 0 < ax then Direction.right else Direction.left)
  else some (if 0 < ay then Direction.down else Direction.up)

/-- Raw per-frame snapshot of the first connected pad as seen by
`GamepadManager.update` (src/gamepad.js:58-60): whether some pad is
connected, its `buttons[i].pressed` flags, and its `axes` values. -/
structure GamepadRaw where
  connected : Bool
  buttons : List Bool
  axes : List ℚ
  deriving DecidableEq

/-- Mutable state of `GamepadManager` (src/gamepad.js:39-42): `pad`
(modelled as the connected flag plus the retained button snapshot),
`_prevButtons`, `_justPressed` and the cached `axes`. -/
structure GamepadState where
  padConnected : Bool
  padButtons : List Bool
  prevButtons : List Bool
  justPressedArr : List Bool
  axes : List ℚ
  deriving DecidableEq

/-- Constructor state: `pad = null`, `_prevButtons = []`, `_justPressed = []`,
`axes = []` (src/gamepad.js:39-42). -/
def initGamepad : GamepadState := ⟨false, [], [], [], []⟩

/-- `btns.map((now, i) => now && !this._prevButtons[i])` (src/gamepad.js:80);
an out-of-range read of `_prevButtons` yields `undefined`, which is falsy. -/
def justPressedOf : List Bool → List Bool → List Bool
  | [], _ => []
  | b :: bs, [] => b :: justPressedOf bs []
  | b :: bs, p :: ps => (b && !p) :: justPressedOf bs ps

/-- `GamepadManager.update` (src/gamepad.js:57-96), with the console
diagnostics dropped.  With a connected pad it caches the button snapshot,
computes `_justPressed` against `_prevButtons`, stores the new snapshot and
copies the axes; with no pad it clears `pad`, `_prevButtons`, `_justPressed`
and resets `axes` to `[0,0,0,0]` (src/gamepad.js:92-94). -/
def gpUpdate (s : GamepadState) (raw : GamepadRaw) : GamepadState :=
  if raw.connected then
    { padConnected := true
      padButtons := raw.buttons
      prevButtons := raw.buttons
      justPressedArr := justPressedOf raw.buttons s.prevButtons
      axes := raw.axes }
  else
    { padConnected := false
      padButtons := []
      prevButtons := []
      justPressedArr := []
      axes := [0, 0, 0, 0] }

/-- `GamepadManager.isConnected` (src/gamepad.js:98-100). -/
def gpIsConnected (s : GamepadState) : Bool := s.padConnected

/-- `this.deadzone = 0.15` (src/gamepad.js:35), commented "Deadzone for
analog sticks".  Note: this field is assigned in the constructor but never
read anywhere else in src/gamepad.js. -/
def gpDeadzone : ℚ := 15 / 100

/-- `GamepadManager.getStick` (src/gamepad.js:102-106): returns the raw
cached axes for 'LEFT' (with `|| 0` defaulting), `{x:0,y:0}` otherwise. -/
def gpGetStick (s : GamepadState) (name : String) : ℚ × ℚ :=
  if s.padConnected then
    if name = "LEFT" then (s.axes.getD 0 0, s.axes.getD 1 0) else (0, 0)
  else (0, 0)

/-- D-pad snapshot returned by `GamepadManager.getDpad` (src/gamepad.js:108-117). -/
structure Dpad where
  up : Bool
  down : Bool
  left : Bool
  right : Bool
  deriving DecidableEq

/-- `GamepadManager.getDpad` (src/gamepad.js:108-117): `null` without a pad,
else the pressed flags of buttons 12-15. -/
def gpGetDpad (s : GamepadState) : Option Dpad :=
  if s.padConnected then
    some ⟨s.padButtons.getD 12 false, s.padButtons.getD 13 false,
          s.padButtons.getD 14 false, s.padButtons.getD 15 false⟩
  else none

/-- The name-to-index map of `GamepadManager.justPressed` (src/gamepad.js:121). -/
def gpButtonIndex (name : String) : Option ℕ :=
  if name = "A" then some 0
  else if name = "B" then some 1
  else if name = "X" then some 2
  else if name = "Y" then some 3
  else if name = "LB" then some 4
  else if name = "RB" then some 5
  else if name = "LT" then some 6
  else if name = "RT" then some 7
  else if name = "VIEW" then some 8
  else if name = "MENU" then some 9
  else none

/-- `GamepadManager.justPressed` (src/gamepad.js:119-124). -/
def gpJustPressed (s : GamepadState) (name : String) : Bool :=
  if s.padConnected then
    match gpButtonIndex name with
    | some i => s.justPressedArr.getD i false
    | none => false
  else false

/-- Modelled from the spec: `KeyboardManager` is constructed and queried by
`InputManager` (src/input.js:6, 80, 93, 123) but its source file is not under
src/.  Per spec §4.1 an adapter polls one raw hardware snapshot per frame;
the raw keyboard snapshot carries the current select-button state and the
current arrow-key direction (consumed via `getArrowDir`). -/
structure KeyboardRaw where
  selectDown : Bool
  arrowDir : Option Direction
  deriving DecidableEq

/-- Modelled from the spec (§4.1): the keyboard adapter retains exactly one
prior frame's button snapshot for `justPressed` edge detection. -/
structure KeyboardState where
  prevSelectDown : Bool
  deriving DecidableEq

/-- Modelled from the spec (§4.1): `poll()` replaces the retained snapshot
with the current frame's one. -/
def kbUpdate (_s : KeyboardState) (raw : KeyboardRaw) : KeyboardState :=
  ⟨raw.selectDown⟩

/-- Modelled from the spec (§4.1): `justPressed` is true exactly on the frame
where the state transitions false→true relative to the previously polled
frame.  `s` is the adapter state before this frame's poll. -/
def kbJustPressedSelect (s : KeyboardState) (raw : KeyboardRaw) : Bool :=
  raw.selectDown && !s.prevSelectDown

/-- Cross-frame state of the `InputManager` coordinator (src/input.js):
`preferGamepad` (line 8), both adapters, and the edge/repeat timer fields
`_activeDir` / `_nextRepeatAt` (lines 21-22) grouped as `timer`. -/
structure InputState where
  preferGamepad : Bool
  keyboard : KeyboardState
  gamepad : GamepadState
  timer : TimerState
  deriving DecidableEq

/-- Constructor state of `InputManager`: `preferGamepad = false`, fresh
adapters, `_activeDir = null`, `_nextRepeatAt = 0`. -/
def initInput : InputState := ⟨false, ⟨false⟩, initGamepad, initTimer⟩

/-- Everything one call of `InputManager.update(ts)` consumes: the timestamp
and the raw hardware snapshots both adapters poll this frame. -/
structure FrameInput where
  ts : ℚ
  gamepad : GamepadRaw
  keyboard : KeyboardRaw
  deriving DecidableEq

def defaultFrameInput : FrameInput := ⟨0, ⟨false, [], []⟩, ⟨false, none⟩⟩

/-- The direction-resolution block of `InputManager.update`
(src/input.js:103-124): D-pad first (priority left, right, up, down), else
dominant stick axis, else the keyboard arrow fallback. -/
def resolveDir (preferGamepad : Bool) (gp : GamepadState)
    (kbArrow : Option Direction) : Option Direction :=
  let dir1 : Option Direction :=
    if preferGamepad then
      match gpGetDpad gp with
      | some dp =>
        if dp.left then some Direction.left
        else if dp.right then some Direction.right
        else if dp.up then some Direction.up
        else if dp.down then some Direction.down
        else none
      | none => none
    else none
  let dir2 : Option Direction :=
    if dir1.isNone && preferGamepad then
      getDominantDirFromAxes (gpGetStick gp "LEFT").1 (gpGetStick gp "LEFT").2
    else dir1
  if dir2.isNone then kbArrow else dir2

/-- `InputManager.update(ts)` (src/input.js:79-145): poll both adapters,
latch `preferGamepad` once a pad is seen connected (lines 83-89), emit
`select` on `(preferGamepad && gamepad.justPressed('A')) ||
keyboard.justPressed('SELECT')` with `source` chosen from `preferGamepad`
(lines 91-101), then resolve the direction and run the edge/repeat timer
(lines 103-144).  Returns the new state and the events in emission order
(select before nav). -/
def inputUpdate (s : InputState) (fi : FrameInput) : InputState × List InputEvent :=
  let kb' := kbUpdate s.keyboard fi.keyboard
  let gp' := gpUpdate s.gamepad fi.gamepad
  let prefer' := if gpIsConnected gp' then true else s.preferGamepad
  let aPressed := if prefer' then gpJustPressed gp' "A" else false
  let kSelect := kbJustPressedSelect s.keyboard fi.keyboard
  let selectEvents : List InputEvent :=
    if aPressed || kSelect then
      [InputEvent.select (if prefer' then EvSource.gamepad else EvSource.keyboard)]
    else []
  let dir := resolveDir prefer' gp' fi.keyboard.arrowDir
  let tr := timerStep s.timer dir fi.ts
  let navEvents : List InputEvent :=
    match tr.2 with
    | some e => [InputEvent.nav e]
    | none => []
  (⟨prefer', kb', gp', tr.1⟩, selectEvents ++ navEvents)

/-- Coordinator state after a sequence of `update` calls. -/
def inputFinal (s : InputState) : List FrameInput → InputState
  | [] => s
  | fi :: fis => inputFinal (inputUpdate s fi).1 fis

/-- Per-call event lists over a sequence of `update` calls. -/
def inputTrace (s : InputState) : List FrameInput → List (List InputEvent)
  | [] => []
  | fi :: fis => (inputUpdate s fi).2 :: inputTrace (inputUpdate s fi).1 fis

def isNavEvent : InputEvent → Bool
  | InputEvent.nav _ => true
  | InputEvent.select _ => false

def isSelectEvent : InputEvent → Bool
  | InputEvent.nav _ => false
  | InputEvent.select _ => true

/-- The timestamp/direction sequence of the spec's edge/repeat scenario:
direction `right` at ts = 0, 100, 225, 300, 312. -/
def scenarioFrames : List NavFrame :=
  [⟨0, some Direction.right⟩, ⟨100, some Direction.right⟩,
   ⟨225, some Direction.right⟩, ⟨300, some Direction.right⟩,
   ⟨312, some Direction.right⟩]

/-! ### Helper lemmas about the edge/repeat timer -/

/-- One call of the repeat/edge block with direction `none` resets the timer
state to `{null, 0}` and emits nothing (src/input.js:127-130). -/
lemma timerStep_dir_none (s : TimerState) (ts : ℚ) :
    timerStep s none ts = (⟨none, 0⟩, none) := rfl

lemma timerStep_fresh (s : TimerState) (d : Direction) (ts : ℚ)
    (h : s.activeDir ≠ some d) :
    timerStep s (some d) ts = (⟨some d, ts + firstDelay⟩, some ⟨d, NavMode.edge⟩) := by
  simp [timerStep, h]

lemma timerStep_held_due (s : TimerState) (d : Direction) (ts : ℚ)
    (h : s.activeDir = some d) (h2 : s.nextRepeatAt ≤ ts) :
    timerStep s (some d) ts = (⟨some d, ts + repeatDelay⟩, some ⟨d, NavMode.rpt⟩) := by
  simp [timerStep, h, h2]

lemma timerStep_held_early (s : TimerState) (d : Direction) (ts : ℚ)
    (h : s.activeDir = some d) (h2 : ¬ s.nextRepeatAt ≤ ts) :
    timerStep s (some d) ts = (s, none) := by
  simp [timerStep, h, h2]

/-- After processing any frame, the stored active direction equals the
frame's resolved direction. -/
lemma timerStep_activeDir (s : TimerState) (dir : Option Direction) (ts : ℚ) :
    ((timerStep s dir ts).1).activeDir = dir := by
  match dir with
  | none => rfl
  | some d =>
    by_cases h : s.activeDir = some d
    · by_cases h2 : s.nextRepeatAt ≤ ts
      · rw [timerStep_held_due s d ts h h2]
      · rw [timerStep_held_early s d ts h h2]; exact h
    · rw [timerStep_fresh s d ts h]

/-- A step emits an edge event for `d` exactly when the frame direction is
`d` and the previously active direction was different. -/
lemma timerStep_edge_iff (s : TimerState) (dir : Option Direction) (ts : ℚ)
    (d : Direction) :
    (timerStep s dir ts).2 = some ⟨d, NavMode.edge⟩ ↔
      dir = some d ∧ s.activeDir ≠ some d := by
  match dir with
  | none => simp [timerStep_dir_none]
  | some d' =>
    by_cases h : s.activeDir = some d'
    · by_cases h2 : s.nextRepeatAt ≤ ts
      · rw [timerStep_held_due s d' ts h h2]
        simp only [Option.some.injEq, NavEvent.mk.injEq]
        constructor
        · rintro ⟨-, hmode⟩; cases hmode
        · rintro ⟨hd, hne⟩; cases hd; exact absurd h hne
      · rw [timerStep_held_early s d' ts h h2]
        simp only [Option.some.injEq]
        constructor
        · rintro h'; cases h'
        · rintro ⟨hd, hne⟩; cases hd; exact absurd h hne
    · rw [timerStep_fresh s d' ts h]
      simp only [Option.some.injEq, NavEvent.mk.injEq]
      constructor
      · rintro ⟨hd, -⟩; cases hd; exact ⟨rfl, h⟩
      · rintro ⟨hd, -⟩; cases hd; exact ⟨rfl, trivial⟩

/-- If a step emits an edge, the new repeat deadline is `ts + firstDelay`. -/
lemma timerStep_edge_deadline (s : TimerState) (dir : Option Direction) (ts : ℚ)
    (d : Direction) (h : (timerStep s dir ts).2 = some ⟨d, NavMode.edge⟩) :
    ((timerStep s dir ts).1).nextRepeatAt = ts + firstDelay := by
  match dir with
  | none => rw [timerStep_dir_none] at h; cases h
  | some d' =>
    by_cases ha : s.activeDir = some d'
    · by_cases h2 : s.nextRepeatAt ≤ ts
      · rw [timerStep_held_due s d' ts ha h2] at h ⊢; cases h
      · rw [timerStep_held_early s d' ts ha h2] at h; cases h
    · rw [timerStep_fresh s d' ts ha]

/-- If a step emits a repeat, the new repeat deadline is `ts + repeatDelay`. -/
lemma timerStep_rpt_deadline (s : TimerState) (dir : Option Direction) (ts : ℚ)
    (d : Direction) (h : (timerStep s dir ts).2 = some ⟨d, NavMode.rpt⟩) :
    ((timerStep s dir ts).1).nextRepeatAt = ts + repeatDelay := by
  match dir with
  | none => rw [timerStep_dir_none] at h; cases h
  | some d' =>
    by_cases ha : s.activeDir = some d'
    · by_cases h2 : s.nextRepeatAt ≤ ts
      · rw [timerStep_held_due s d' ts ha h2]
      · rw [timerStep_held_early s d' ts ha h2] at h; cases h
    · rw [timerStep_fresh s d' ts ha] at h
      simp only [Option.some.injEq, NavEvent.mk.injEq] at h
      exact absurd h.2 (by intro hh; cases hh)

/-- A repeat emission requires the frame direction to be the active one and
the deadline to have passed. -/
lemma timerStep_rpt_inv (s : TimerState) (dir : Option Direction) (ts : ℚ)
    (d : Direction) (h : (timerStep s dir ts).2 = some ⟨d, NavMode.rpt⟩) :
    dir = some d ∧ s.activeDir = some d ∧ s.nextRepeatAt ≤ ts := by
  match dir with
  | none => rw [timerStep_dir_none] at h; cases h
  | some d' =>
    by_cases ha : s.activeDir = some d'
    · by_cases h2 : s.nextRepeatAt ≤ ts
      · rw [timerStep_held_due s d' ts ha h2] at h
        simp only [Option.some.injEq, NavEvent.mk.injEq] at h
        cases h.1; exact ⟨rfl, ha, h2⟩
      · rw [timerStep_held_early s d' ts ha h2] at h; cases h
    · rw [timerStep_fresh s d' ts ha] at h
      simp only [Option.some.injEq, NavEvent.mk.injEq] at h
      exact absurd h.2 (by intro hh; cases hh)

/-- A silent step on a non-none direction leaves the state unchanged. -/
lemma timerStep_silent_state (s : TimerState) (d : Direction) (ts : ℚ)
    (h : (timerStep s (some d) ts).2 = none) :
    (timerStep s (some d) ts).1 = s ∧ s.activeDir = some d := by
  by_cases ha : s.activeDir = some d
  · by_cases h2 : s.nextRepeatAt ≤ ts
    · rw [timerStep_held_due s d ts ha h2] at h; cases h
    · rw [timerStep_held_early s d ts ha h2]; exact ⟨rfl, ha⟩
  · rw [timerStep_fresh s d ts ha] at h; cases h

/-- `runTimer` produces one (possible) emission per frame. -/
lemma runTimer_length (s : TimerState) (fs : List NavFrame) :
    (runTimer s fs).length = fs.length := by
  induction fs generalizing s with
  | nil => rfl
  | cons f fs ih => simp [runTimer, ih]

lemma runTimer_getD_of_le (s : TimerState) (fs : List NavFrame) (i : ℕ)
    (h : fs.length ≤ i) : (runTimer s fs).getD i none = none := by
  rw [List.getD_eq_getElem?_getD, List.getElem?_eq_none]
  · rfl
  · rw [runTimer_length]; exact h

/-- Edge characterization of the running timer: an edge event for `d` is
emitted at frame `i` exactly when frame `i` resolves to `d` and either the
run starts the trace (with no previously active direction in the start
state) or the previous frame resolved differently.  The start-state side
condition is phrased relative to an arbitrary start state `s`. -/
lemma runTimer_edge_char (fs : List NavFrame) (s : TimerState) (i : ℕ)
    (d : Direction) (hi : i < fs.length) :
    (runTimer s fs).getD i none = some ⟨d, NavMode.edge⟩ ↔
      (fs.getD i defaultNavFrame).dir = some d ∧
        (if i = 0 then s.activeDir ≠ some d
         else (fs.getD (i - 1) defaultNavFrame).dir ≠ some d) := by
  induction fs generalizing s i with
  | nil => cases hi
  | cons f fs ih =>
    match i with
    | 0 =>
      simp only [runTimer, List.getD_cons_zero, if_pos rfl]
      exact timerStep_edge_iff s f.dir f.ts d
    | Nat.succ k =>
      simp only [runTimer, List.getD_cons_succ]
      have hk : k < fs.length := Nat.lt_of_succ_lt_succ hi
      rw [ih (timerStep s f.dir f.ts).1 k hk]
      match k with
      | 0 =>
        simp only [if_pos rfl, Nat.succ_sub_one, List.getD_cons_zero]
        rw [timerStep_activeDir]
        simp
      | Nat.succ m =>
        simp only [Nat.succ_sub_one, List.getD_cons_succ]
        simp

/-- Starting from a state with no active direction, no repeat event can
occur before some event has occurred. -/
lemma runTimer_no_early_rpt (fs : List NavFrame) (s : TimerState) (j : ℕ)
    (d : Direction) (hact : s.activeDir = none)
    (hpre : ∀ k, k < j → (runTimer s fs).getD k none = none) :
    (runTimer s fs).getD j none ≠ some ⟨d, NavMode.rpt⟩ := by
  induction fs generalizing s j with
  | nil => simp [runTimer]
  | cons f fs ih =>
    match j with
    | 0 =>
      simp only [runTimer, List.getD_cons_zero]
      intro hev
      have := (timerStep_rpt_inv s f.dir f.ts d hev).2.1
      rw [hact] at this; cases this
    | Nat.succ k =>
      simp only [runTimer, List.getD_cons_succ]
      have h0 : (timerStep s f.dir f.ts).2 = none := by
        have := hpre 0 (Nat.succ_pos k)
        simpa [runTimer] using this
      match hd : f.dir with
      | none =>
        refine ih (timerStep s none f.ts).1 k ?_ ?_
        · rw [timerStep_activeDir]
        · intro m hm
          have := hpre (m + 1) (Nat.succ_lt_succ hm)
          simpa [runTimer, hd] using this
      | some d' =>
        rw [hd] at h0
        have := (timerStep_silent_state s d' f.ts h0).2
        rw [hact] at this; cases this

/-- If a repeat event occurs at index `j` and nothing was emitted before it,
the frame timestamp at `j` is at least the start state's deadline. -/
lemma runTimer_rpt_ge_deadline (fs : List NavFrame) (s : TimerState) (j : ℕ)
    (d : Direction)
    (hpre : ∀ k, k < j → (runTimer s fs).getD k none = none)
    (hj : (runTimer s fs).getD j none = some ⟨d, NavMode.rpt⟩) :
    s.nextRepeatAt ≤ (fs.getD j defaultNavFrame).ts := by
  induction fs generalizing s j with
  | nil => simp [runTimer] at hj
  | cons f fs ih =>
    match j with
    | 0 =>
      simp only [runTimer, List.getD_cons_zero] at hj ⊢
      exact (timerStep_rpt_inv s f.dir f.ts d hj).2.2
    | Nat.succ k =>
      simp only [runTimer, List.getD_cons_succ] at hj ⊢
      have h0 : (timerStep s f.dir f.ts).2 = none := by
        have := hpre 0 (Nat.succ_pos k)
        simpa [runTimer] using this
      have hpre' : ∀ m, m < k → (runTimer (timerStep s f.dir f.ts).1 fs).getD m none = none := by
        intro m hm
        have := hpre (m + 1) (Nat.succ_lt_succ hm)
        simpa [runTimer] using this
      match hd : f.dir with
      | none =>
        exfalso
        refine runTimer_no_early_rpt fs (timerStep s f.dir f.ts).1 k d ?_ hpre' ?_
        · rw [timerStep_activeDir, hd]
        · exact hj
      | some d' =>
        rw [hd] at h0
        have hs := (timerStep_silent_state s d' f.ts h0).1
        have := ih (timerStep s f.dir f.ts).1 k hpre' hj
        rw [hd, hs] at this
        exact this

/-- Spacing of emissions within a run: if the event at `j` is a repeat and
`i < j` holds the closest preceding emission, then the two frames are at
least `repeatDelay` apart, and at least `firstDelay` apart when the event at
`i` is an edge. -/
lemma runTimer_spacing (fs : List NavFrame) (s : TimerState) (i j : ℕ)
    (d : Direction) (hij : i < j)
    (hi : (runTimer s fs).getD i none ≠ none)
    (hmid : ∀ k, i < k → k < j → (runTimer s fs).getD k none = none)
    (hj : (runTimer s fs).getD j none = some ⟨d, NavMode.rpt⟩) :
    (fs.getD i defaultNavFrame).ts + repeatDelay ≤ (fs.getD j defaultNavFrame).ts ∧
      (∀ d', (runTimer s fs).getD i none = some ⟨d', NavMode.edge⟩ →
        (fs.getD i defaultNavFrame).ts + firstDelay ≤ (fs.getD j defaultNavFrame).ts) := by
  induction fs generalizing s i j with
  | nil => simp [runTimer] at hi
  | cons f fs ih =>
    match j with
    | 0 => cases hij
    | Nat.succ m =>
      match i with
      | 0 =>
        simp only [runTimer, List.getD_cons_zero, List.getD_cons_succ] at hi hj ⊢
        have hpre' : ∀ k, k < m → (runTimer (timerStep s f.dir f.ts).1 fs).getD k none = none := by
          intro k hk
          have := hmid (k + 1) (Nat.succ_pos k) (Nat.succ_lt_succ hk)
          simpa [runTimer] using this
        have hge := runTimer_rpt_ge_deadline fs (timerStep s f.dir f.ts).1 m d hpre' hj
        match hev : (timerStep s f.dir f.ts).2 with
        | none => exact absurd hev hi
        | some e =>
          match e with
          | ⟨d', NavMode.edge⟩ =>
            have hdl := timerStep_edge_deadline s f.dir f.ts d' hev
            rw [hdl] at hge
            constructor
            · calc f.ts + repeatDelay ≤ f.ts + firstDelay := by
                    unfold repeatDelay firstDelay; norm_num
                _ ≤ (fs.getD m defaultNavFrame).ts := hge
            · intro d'' _
              exact hge
          | ⟨d', NavMode.rpt⟩ =>
            have hdl := timerStep_rpt_deadline s f.dir f.ts d' hev
            rw [hdl] at hge
            refine ⟨hge, ?_⟩
            intro d'' hcontra
            simp only [Option.some.injEq, NavEvent.mk.injEq] at hcontra
            exact absurd hcontra.2 (by intro hh; cases hh)
      | Nat.succ n =>
        simp only [runTimer, List.getD_cons_succ] at hi hj ⊢
        have hij' : n < m := Nat.lt_of_succ_lt_succ hij
        have hmid' : ∀ k, n < k → k < m →
            (runTimer (timerStep s f.dir f.ts).1 fs).getD k none = none := by
          intro k hk1 hk2
          have := hmid (k + 1) (Nat.succ_lt_succ hk1) (Nat.succ_lt_succ hk2)
          simpa [runTimer] using this
        exact ih (timerStep s f.dir f.ts).1 n m hij' hi hmid' hj

/-! ### Claim theorems for the edge/repeat timer -/

/-- C1.  For every monotonically increasing timestamp sequence with a
per-frame resolved direction, the timer (started from its constructor
state): (a) emits an edge event for `d` at frame `i` exactly when frame `i`
resolves to `d` and frame `i` starts a maximal run of that direction (it is
the first frame, or the previous frame resolved differently) — hence exactly
one edge per maximal run of a constant non-none direction; (b) a repeat
event is at least `repeatDelay` (85 ms) after the closest preceding
emission, and at least `firstDelay` (220 ms) after it when that preceding
emission is the run's edge; (c) on the concrete scenario
ts = 0,100,225,300,312 with direction `right`, the events are edge at 0,
nothing at 100, repeat at 225 with next deadline 310, nothing at 300, and
repeat at 312. -/
theorem timer_edge_repeat_spec (frames : List NavFrame)
    (hmono : frames.Chain' (fun a b => a.ts < b.ts)) :
    (∀ i d, i < frames.length →
      ((runTimer initTimer frames).getD i none = some ⟨d, NavMode.edge⟩ ↔
        (frames.getD i defaultNavFrame).dir = some d ∧
          (i = 0 ∨ (frames.getD (i - 1) defaultNavFrame).dir ≠ some d))) ∧
    (∀ i j d, i < j →
      (runTimer initTimer frames).getD i none ≠ none →
      (∀ k, i < k → k < j → (runTimer initTimer frames).getD k none = none) →
      (runTimer initTimer frames).getD j none = some ⟨d, NavMode.rpt⟩ →
      (frames.getD i defaultNavFrame).ts + repeatDelay ≤
          (frames.getD j defaultNavFrame).ts ∧
        (∀ d', (runTimer initTimer frames).getD i none = some ⟨d', NavMode.edge⟩ →
          (frames.getD i defaultNavFrame).ts + firstDelay ≤
            (frames.getD j defaultNavFrame).ts)) ∧
    (runTimer initTimer scenarioFrames =
      [some ⟨Direction.right, NavMode.edge⟩, none,
       some ⟨Direction.right, NavMode.rpt⟩, none,
       some ⟨Direction.right, NavMode.rpt⟩] ∧
     (timerFinal initTimer (scenarioFrames.take 3)).nextRepeatAt = 310) := by
  refine ⟨?_, ?_, ?_, ?_⟩
  · intro i d hi
    rw [runTimer_edge_char frames initTimer i d hi]
    match i with
    | 0 => simp [initTimer]
    | Nat.succ k => simp
  · intro i j d hij hi hmid hj
    exact runTimer_spacing frames initTimer i j d hij hi hmid hj
  · have h1 : timerStep initTimer (some Direction.right) 0 =
        (⟨some Direction.right, 220⟩, some ⟨Direction.right, NavMode.edge⟩) := by
      simp [timerStep, initTimer, firstDelay]
    have h2 : timerStep ⟨some Direction.right, 220⟩ (some Direction.right) 100 =
        (⟨some Direction.right, 220⟩, none) := by
      simp [timerStep]; norm_num
    have h3 : timerStep ⟨some Direction.right, 220⟩ (some Direction.right) 225 =
        (⟨some Direction.right, 310⟩, some ⟨Direction.right, NavMode.rpt⟩) := by
      simp [timerStep, repeatDelay]; norm_num
    have h4 : timerStep ⟨some Direction.right, 310⟩ (some Direction.right) 300 =
        (⟨some Direction.right, 310⟩, none) := by
      simp [timerStep]; norm_num
    have h5 : timerStep ⟨some Direction.right, 310⟩ (some Direction.right) 312 =
        (⟨some Direction.right, 397⟩, some ⟨Direction.right, NavMode.rpt⟩) := by
      simp [timerStep, repeatDelay]; norm_num
    simp [runTimer, scenarioFrames, h1, h2, h3, h4, h5]
  · have h1 : timerStep initTimer (some Direction.right) 0 =
        (⟨some Direction.right, 220⟩, some ⟨Direction.right, NavMode.edge⟩) := by
      simp [timerStep, initTimer, firstDelay]
    have h2 : timerStep ⟨some Direction.right, 220⟩ (some Direction.right) 100 =
        (⟨some Direction.right, 220⟩, none) := by
      simp [timerStep]; norm_num
    have h3 : timerStep ⟨some Direction.right, 220⟩ (some Direction.right) 225 =
        (⟨some Direction.right, 310⟩, some ⟨Direction.right, NavMode.rpt⟩) := by
      simp [timerStep, repeatDelay]; norm_num
    simp [timerFinal, scenarioFrames, h1, h2, h3]

/-- Witness for C1: the theorem applied to the concrete scenario input
(whose timestamps are strictly increasing). -/
theorem timer_edge_repeat_spec_witness :
    runTimer initTimer scenarioFrames =
      [some ⟨Direction.right, NavMode.edge⟩, none,
       some ⟨Direction.right, NavMode.rpt⟩, none,
       some ⟨Direction.right, NavMode.rpt⟩] :=
  (timer_edge_repeat_spec scenarioFrames
    (by simp [scenarioFrames]; norm_num)).2.2.1

/-- From a state with no active direction, the first later frame that
resolves to a non-none direction emits an edge event for it. -/
lemma runTimer_first_dir_edge (fs : List NavFrame) (s : TimerState) (j : ℕ)
    (d : Direction) (hact : s.activeDir = none)
    (hpre : ∀ k, k < j → (fs.getD k defaultNavFrame).dir = none)
    (hj : j < fs.length) (hd : (fs.getD j defaultNavFrame).dir = some d) :
    (runTimer s fs).getD j none = some ⟨d, NavMode.edge⟩ := by
  induction fs generalizing s j with
  | nil => cases hj
  | cons f fs ih =>
    match j with
    | 0 =>
      rw [List.getD_cons_zero] at hd
      simp only [runTimer, List.getD_cons_zero]
      rw [hd, timerStep_fresh s d f.ts (by rw [hact]; intro hh; cases hh)]
    | Nat.succ k =>
      simp only [runTimer, List.getD_cons_succ]
      have hd0 : f.dir = none := by
        have := hpre 0 (Nat.succ_pos k)
        simpa using this
      refine ih (timerStep s f.dir f.ts).1 k ?_ ?_ ?_ ?_
      · rw [timerStep_activeDir, hd0]
      · intro m hm
        have := hpre (m + 1) (Nat.succ_lt_succ hm)
        simpa using this
      · exact Nat.lt_of_succ_lt_succ hj
      · simpa using hd

/-- C2.  Resolving `none` on a frame resets the timer state to
`{none, 0}` with no emission, and afterwards the first frame resolving to a
non-none direction — even the direction that was active before the reset —
emits a fresh edge event (in particular not a repeat). -/
theorem timer_none_reset_spec (s : TimerState) (ts : ℚ) (fs : List NavFrame)
    (j : ℕ) (d : Direction)
    (hpre : ∀ k, k < j → (fs.getD k defaultNavFrame).dir = none)
    (hj : j < fs.length) (hd : (fs.getD j defaultNavFrame).dir = some d) :
    timerStep s none ts = (⟨none, 0⟩, none) ∧
      (runTimer (timerStep s none ts).1 fs).getD j none =
        some ⟨d, NavMode.edge⟩ := by
  refine ⟨timerStep_dir_none s ts, ?_⟩
  exact runTimer_first_dir_edge fs (timerStep s none ts).1 j d
    (by rw [timerStep_activeDir]) hpre hj hd

/-- Witness for C2: direction `right` is active with a pending deadline,
a `none` frame resets, one more `none` frame passes, and the return to
`right` at ts = 800 emits an edge (not a repeat). -/
theorem timer_none_reset_spec_witness :
    timerStep ⟨some Direction.right, 500⟩ none 600 = (⟨none, 0⟩, none) ∧
      (runTimer (timerStep ⟨some Direction.right, 500⟩ none 600).1
          [⟨700, none⟩, ⟨800, some Direction.right⟩]).getD 1 none =
        some ⟨Direction.right, NavMode.edge⟩ :=
  timer_none_reset_spec ⟨some Direction.right, 500⟩ 600
    [⟨700, none⟩, ⟨800, some Direction.right⟩] 1 Direction.right
    (by intro k hk
        match k, hk with
        | 0, _ => rfl)
    (by norm_num)
    rfl

/-! ### Claim theorems for the direction resolver and the gamepad adapter -/

lemma navDeadzone_pos : (0 : ℚ) < navDeadzone := by norm_num [navDeadzone]

/-- C7.  Any stick vector whose magnitude is below the navigation deadzone
0.32 (stated squared, avoiding the square root) fails the per-axis test
`max(|x|,|y|) < 0.32` of `_getDominantDirFromAxes` and so resolves to no
direction; consequently the full resolver (with no digital-pad direction
active and no keyboard fallback direction) returns `none`. -/
theorem nav_deadzone_spec (x y : ℚ) (gp : GamepadState)
    (h : x ^ 2 + y ^ 2 < navDeadzone ^ 2)
    (hdp : ∀ dp, gpGetDpad gp = some dp →
      dp.left = false ∧ dp.right = false ∧ dp.up = false ∧ dp.down = false)
    (hax : gpGetStick gp "LEFT" = (x, y)) :
    getDominantDirFromAxes x y = none ∧ resolveDir true gp none = none := by
  have hx : |x| < navDeadzone := by
    refine lt_of_pow_lt_pow_left₀ 2 (le_of_lt navDeadzone_pos) ?_
    rw [sq_abs]
    nlinarith [sq_nonneg y]
  have hy : |y| < navDeadzone := by
    refine lt_of_pow_lt_pow_left₀ 2 (le_of_lt navDeadzone_pos) ?_
    rw [sq_abs]
    nlinarith [sq_nonneg x]
  have hdom : getDominantDirFromAxes x y = none := by
    unfold getDominantDirFromAxes
    rw [if_pos ⟨hx, hy⟩]
  refine ⟨hdom, ?_⟩
  unfold resolveDir
  match hgd : gpGetDpad gp with
  | none =>
    simp [hax, hdom]
  | some dp =>
    obtain ⟨hl, hr, hu, hd⟩ := hdp dp hgd
    simp [hl, hr, hu, hd, hax, hdom]

/-- Witness for C7: the vector (0.1, 0.1) has squared magnitude 0.02 below
0.32² and resolves to no direction, both through the dominant-axis helper
and through the full resolver on a connected pad with an idle D-pad. -/
theorem nav_deadzone_spec_witness :
    getDominantDirFromAxes (1 / 10) (1 / 10) = none ∧
      resolveDir true (gpUpdate initGamepad ⟨true, [], [1 / 10, 1 / 10]⟩) none = none :=
  nav_deadzone_spec (1 / 10) (1 / 10)
    (gpUpdate initGamepad ⟨true, [], [1 / 10, 1 / 10]⟩)
    (by norm_num [navDeadzone])
    (by intro dp hdp
        simp [gpUpdate, gpGetDpad] at hdp
        simp [← hdp])
    (by simp [gpUpdate, gpGetStick])

/-- C8.  On a dominant-axis tie (`|x| = |y|`) at or above the navigation
deadzone, `_getDominantDirFromAxes` resolves horizontally: `right` when
`x > 0`, else `left` — never `up` or `down`. -/
theorem dominant_axis_tie_spec (x y : ℚ) (hxy : |x| = |y|)
    (hx : navDeadzone ≤ |x|) (hy : navDeadzone ≤ |y|) :
    getDominantDirFromAxes x y =
      some (if 0 < x then Direction.right else Direction.left) := by
  have hcond : ¬(|x| < navDeadzone ∧ |y| < navDeadzone) := by
    rintro ⟨h1, -⟩
    exact absurd hx (not_le.mpr h1)
  unfold getDominantDirFromAxes
  rw [if_neg hcond, if_pos (le_of_eq hxy.symm)]

/-- Witness for C8: the tied vector (1/2, -1/2) resolves to `right`. -/
theorem dominant_axis_tie_spec_witness :
    getDominantDirFromAxes (1 / 2) (-(1 / 2)) = some Direction.right := by
  have h := dominant_axis_tie_spec (1 / 2) (-(1 / 2))
    (by rw [abs_of_nonneg, abs_of_nonpos] <;> norm_num)
    (by rw [abs_of_nonneg] <;> norm_num [navDeadzone])
    (by rw [abs_of_nonpos] <;> norm_num [navDeadzone])
  rw [if_pos (show (0 : ℚ) < 1 / 2 by norm_num)] at h
  exact h

/-- C6.  When the connected pad's D-pad has at least one direction down, the
resolver returns the first active direction in priority order
left, right, up, down — regardless of the analog stick's value (the stick
branch is never consulted) and of the keyboard fallback. -/
theorem dpad_priority_spec (gp : GamepadState) (kbArrow : Option Direction)
    (dp : Dpad) (hdp : gpGetDpad gp = some dp)
    (hany : dp.left = true ∨ dp.right = true ∨ dp.up = true ∨ dp.down = true) :
    resolveDir true gp kbArrow =
      some (if dp.left then Direction.left
            else if dp.right then Direction.right
            else if dp.up then Direction.up
            else Direction.down) := by
  rcases dp with ⟨u, dn, l, r⟩
  unfold resolveDir
  rw [hdp]
  cases l <;> cases r <;> cases u <;> cases dn <;> simp_all

/-- Buttons array with only D-pad left (index 14) pressed. -/
def dpadLeftButtons : List Bool :=
  [false, false, false, false, false, false, false, false, false, false,
   false, false, false, false, true, false]

/-- Connected pad with D-pad left held while the stick points right with
magnitude 0.9. -/
def gpDpadLeftStickRight : GamepadState :=
  gpUpdate initGamepad ⟨true, dpadLeftButtons, [9 / 10, 0]⟩

/-- Witness for C6: D-pad left + stick 0.9 toward right resolves to `left`. -/
theorem dpad_priority_spec_witness :
    resolveDir true gpDpadLeftStickRight none = some Direction.left := by
  have h := dpad_priority_spec gpDpadLeftStickRight none ⟨false, false, true, false⟩
    (by simp [gpDpadLeftStickRight, gpUpdate, gpGetDpad, dpadLeftButtons])
    (Or.inl rfl)
  simpa using h

/-- The raw pad snapshot of C4's failing input: connected, no buttons, left
stick at (0.1, 0) — magnitude 0.1, below the declared 0.15 deadzone. -/
def stickBelowDeadzoneRaw : GamepadRaw := ⟨true, [], [1 / 10, 0]⟩

/-- C4 (code bug).  The stick vector (0.1, 0) has magnitude below the
declared device-level deadzone 0.15 (stated squared), yet after polling it
`getStick('LEFT')` reports the raw vector (0.1, 0) rather than `{x:0,y:0}`:
the `deadzone` field of src/gamepad.js:35 is never applied. -/
theorem gpGetStick_ignores_deadzone :
    ((1 : ℚ) / 10) ^ 2 + (0 : ℚ) ^ 2 < gpDeadzone ^ 2 ∧
      gpGetStick (gpUpdate initGamepad stickBelowDeadzoneRaw) "LEFT" =
        (1 / 10, 0) := by
  constructor
  · norm_num [gpDeadzone]
  · simp [gpGetStick, gpUpdate, stickBelowDeadzoneRaw]

lemma justPressedOf_nil (bs : List Bool) : justPressedOf bs [] = bs := by
  induction bs with
  | nil => rfl
  | cons b bs ih => simp [justPressedOf, ih]

/-- C10.  A disconnected poll clears the retained previous-button snapshot,
so on the first poll after reconnection every held button — including one
held continuously across the disconnect — is reported as freshly pressed
(`justPressed('A')` in particular for button 0). -/
theorem reconnect_fresh_press_spec (s : GamepadState) (rawD rawC : GamepadRaw)
    (i : ℕ) (hd : rawD.connected = false) (hc : rawC.connected = true)
    (hb : rawC.buttons.getD i false = true) :
    (gpUpdate s rawD).prevButtons = [] ∧
      (gpUpdate (gpUpdate s rawD) rawC).justPressedArr.getD i false = true ∧
      (rawC.buttons.getD 0 false = true →
        gpJustPressed (gpUpdate (gpUpdate s rawD) rawC) "A" = true) := by
  have h1 : gpUpdate s rawD =
      ⟨false, [], [], [], [0, 0, 0, 0]⟩ := by
    simp [gpUpdate, hd]
  have h2 : (gpUpdate (gpUpdate s rawD) rawC).justPressedArr = rawC.buttons := by
    rw [h1]
    simp [gpUpdate, hc, justPressedOf_nil]
  refine ⟨by rw [h1], by rw [h2]; exact hb, ?_⟩
  intro h0
  have hcn : (gpUpdate (gpUpdate s rawD) rawC).padConnected = true := by
    simp [gpUpdate, hc]
  have h0' : rawC.buttons[0]?.getD false = true := by
    rw [← List.getD_eq_getElem?_getD]; exact h0
  simp [gpJustPressed, hcn, gpButtonIndex, h2, h0']

/-- State of a pad whose A button (index 0) has been held: the previous
snapshot already records it as down, so it is not a fresh press. -/
def gpHeldA : GamepadState := ⟨true, [true], [true], [false], [0, 0, 0, 0]⟩

def rawDisconnected : GamepadRaw := ⟨false, [], []⟩

def rawReconnectHeldA : GamepadRaw := ⟨true, [true], [0, 0, 0, 0]⟩

/-- Witness for C10: with A held before the disconnect, a disconnected poll
followed by a reconnected poll reports A as freshly pressed. -/
theorem reconnect_fresh_press_spec_witness :
    (gpUpdate gpHeldA rawDisconnected).prevButtons = [] ∧
      (gpUpdate (gpUpdate gpHeldA rawDisconnected)
          rawReconnectHeldA).justPressedArr.getD 0 false = true ∧
      (rawReconnectHeldA.buttons.getD 0 false = true →
        gpJustPressed (gpUpdate (gpUpdate gpHeldA rawDisconnected)
          rawReconnectHeldA) "A" = true) :=
  reconnect_fresh_press_spec gpHeldA rawDisconnected rawReconnectHeldA 0
    rfl rfl rfl

/-! ### Claim theorems for the input coordinator -/

/-- One `update` call leaves `preferGamepad` true exactly when the pad is
connected this frame or the flag was already set (src/input.js:83-89). -/
lemma inputUpdate_prefer (s : InputState) (fi : FrameInput) :
    (inputUpdate s fi).1.preferGamepad =
      (if fi.gamepad.connected then true else s.preferGamepad) := by
  cases hc : fi.gamepad.connected <;>
    simp [inputUpdate, gpUpdate, gpIsConnected, hc]

/-- `preferGamepad` is never cleared by `update`. -/
lemma inputFinal_prefer_mono (l : List FrameInput) (s : InputState)
    (h : s.preferGamepad = true) : (inputFinal s l).preferGamepad = true := by
  induction l generalizing s with
  | nil => exact h
  | cons fi fis ih =>
    refine ih _ ?_
    rw [inputUpdate_prefer]
    cases fi.gamepad.connected <;> simp [h]

lemma inputFinal_latch (fis : List FrameInput) (s : InputState) (i j : ℕ)
    (hij : i ≤ j) (hj : j < fis.length)
    (hconn : (fis.getD i defaultFrameInput).gamepad.connected = true) :
    (inputFinal s (fis.take (j + 1))).preferGamepad = true := by
  induction fis generalizing s i j with
  | nil => cases hj
  | cons fi fis ih =>
    match i with
    | 0 =>
      rw [List.getD_cons_zero] at hconn
      simp only [List.take_succ_cons, inputFinal]
      refine inputFinal_prefer_mono _ _ ?_
      rw [inputUpdate_prefer, hconn]
      rfl
    | Nat.succ n =>
      match j with
      | 0 => exact absurd hij (Nat.not_succ_le_zero n)
      | Nat.succ m =>
        simp only [List.take_succ_cons, inputFinal]
        refine ih (inputUpdate s fi).1 n m (Nat.le_of_succ_le_succ hij)
          (Nat.lt_of_succ_lt_succ hj) ?_
        simpa using hconn

/-- C5.  If the gamepad adapter reports connected on tick `i`, then after
every tick `j ≥ i` of the update loop (started from the constructor state)
the device preference is gamepad — the latch never reverts, even if the pad
later disconnects. -/
theorem prefer_gamepad_latch_spec (fis : List FrameInput) (i j : ℕ)
    (hij : i ≤ j) (hj : j < fis.length)
    (hconn : (fis.getD i defaultFrameInput).gamepad.connected = true) :
    (inputFinal initInput (fis.take (j + 1))).preferGamepad = true :=
  inputFinal_latch fis initInput i j hij hj hconn

/-- Two ticks: the pad connects on the first and is gone again on the second. -/
def latchScenario : List FrameInput :=
  [⟨0, ⟨true, [], [0, 0, 0, 0]⟩, ⟨false, none⟩⟩,
   ⟨16, ⟨false, [], []⟩, ⟨false, none⟩⟩]

/-- Witness for C5: connected at tick 0, disconnected at tick 1 — the
preference is still gamepad after tick 1. -/
theorem prefer_gamepad_latch_spec_witness :
    (inputFinal initInput (latchScenario.take 2)).preferGamepad = true :=
  prefer_gamepad_latch_spec latchScenario 0 1 (by norm_num)
    (by simp [latchScenario]) rfl

/-- C9.  A single `update` call emits at most one nav event and at most one
select event, whatever the current state and raw frame input. -/
theorem at_most_one_event_spec (s : InputState) (fi : FrameInput) :
    (inputUpdate s fi).2.countP isNavEvent ≤ 1 ∧
      (inputUpdate s fi).2.countP isSelectEvent ≤ 1 := by
  unfold inputUpdate
  constructor <;>
  · dsimp only
    rw [List.countP_append]
    repeat' split
    all_goals simp [List.countP_cons, isNavEvent, isSelectEvent]

lemma getDominantDirFromAxes_zero : getDominantDirFromAxes 0 0 = none := by
  unfold getDominantDirFromAxes
  rw [if_pos]
  constructor <;> · rw [abs_zero]; exact navDeadzone_pos

lemma select_mem_nav_list (o : Option NavEvent) (src : EvSource) :
    InputEvent.select src ∉
      (match o with
       | some e => [InputEvent.nav e]
       | none => ([] : List InputEvent)) := by
  rcases o with _ | e <;> simp

/-- The condition under which `update` actually emits `select`
(src/input.js:92-94): the gamepad preference is set and the pad's A button
was just pressed, or the keyboard's select was just pressed — the keyboard
path is evaluated regardless of which device is preferred. -/
def selectShouldFire (s : InputState) (fi : FrameInput) : Bool :=
  ((if gpIsConnected (gpUpdate s.gamepad fi.gamepad) then true else s.preferGamepad) &&
      gpJustPressed (gpUpdate s.gamepad fi.gamepad) "A") ||
    kbJustPressedSelect s.keyboard fi.keyboard

/-- The `source` value `update` attaches to a `select` event
(src/input.js:96): the currently preferred device, independent of which
device actually produced the press. -/
def selectSource (s : InputState) (fi : FrameInput) : EvSource :=
  if (if gpIsConnected (gpUpdate s.gamepad fi.gamepad) then true else s.preferGamepad) then
    EvSource.gamepad
  else EvSource.keyboard

/-- Gamepad state in which the A button has been held since the previous
frame (so it is not a fresh press this frame). -/
def cexGamepadState : GamepadState := ⟨true, [true], [true], [false], [0, 0, 0, 0]⟩

/-- Coordinator state: gamepad preferred and connected, A held, keyboard
select not previously down. -/
def cexInputState : InputState := ⟨true, ⟨false⟩, cexGamepadState, initTimer⟩

/-- Frame input: pad still connected with A held, keyboard select freshly
pressed, neutral stick and no arrows. -/
def cexFrameInput : FrameInput := ⟨0, ⟨true, [true], [0, 0, 0, 0]⟩, ⟨true, none⟩⟩

/-- Counterexample to C3 as stated: with the gamepad authoritative, its A
button *not* transitioning false→true this frame, and the press produced by
the keyboard, `update` nevertheless emits a select event — and stamps it
`source = gamepad`. -/
theorem select_source_counterexample :
    (inputUpdate cexInputState cexFrameInput).2 =
        [InputEvent.select EvSource.gamepad] ∧
      gpJustPressed (gpUpdate cexInputState.gamepad cexFrameInput.gamepad) "A" =
        false ∧
      kbJustPressedSelect cexInputState.keyboard cexFrameInput.keyboard = true ∧
      gpIsConnected (gpUpdate cexInputState.gamepad cexFrameInput.gamepad) = true := by
  refine ⟨?_, rfl, rfl, rfl⟩
  simp [inputUpdate, cexInputState, cexFrameInput, cexGamepadState, gpUpdate,
    gpIsConnected, gpJustPressed, gpButtonIndex, justPressedOf,
    kbJustPressedSelect, resolveDir, gpGetDpad, gpGetStick,
    getDominantDirFromAxes_zero, timerStep]

/-- Keyboard-only scenario: the select key goes down, down, up, down over
four frames, with no gamepad and no arrow keys. -/
def kbSelectScenario : List FrameInput :=
  [⟨0, ⟨false, [], []⟩, ⟨true, none⟩⟩,
   ⟨16, ⟨false, [], []⟩, ⟨true, none⟩⟩,
   ⟨33, ⟨false, [], []⟩, ⟨false, none⟩⟩,
   ⟨50, ⟨false, [], []⟩, ⟨true, none⟩⟩]

/-- C3, amended.  A select event with source `src` is emitted exactly when
`(preference is gamepad && the pad's A was just pressed) || the keyboard's
select was just pressed` — the keyboard path fires even while the gamepad is
authoritative — and `src` is always the *preferred* device, not necessarily
the device that produced the press.  With a single active device the
edge-only scenario holds: select down, down, up, down over four keyboard
frames fires select exactly on the first and fourth frames. -/
theorem select_emission_spec (s : InputState) (fi : FrameInput) (src : EvSource) :
    (InputEvent.select src ∈ (inputUpdate s fi).2 ↔
      selectShouldFire s fi = true ∧ src = selectSource s fi) ∧
    inputTrace initInput kbSelectScenario =
      [[InputEvent.select EvSource.keyboard], [], [],
       [InputEvent.select EvSource.keyboard]] := by
  constructor
  · unfold inputUpdate selectShouldFire selectSource
    dsimp only
    rw [List.mem_append]
    cases hc : gpIsConnected (gpUpdate s.gamepad fi.gamepad) <;>
    cases hp : s.preferGamepad <;>
    cases ha : gpJustPressed (gpUpdate s.gamepad fi.gamepad) "A" <;>
    cases hk : kbJustPressedSelect s.keyboard fi.keyboard <;>
      simp [hc, hp, ha, hk, select_mem_nav_list]
  · simp [inputTrace, inputUpdate, kbSelectScenario, initInput, initGamepad,
      gpUpdate, gpIsConnected, gpJustPressed, kbUpdate, kbJustPressedSelect,
      resolveDir, gpGetDpad, gpGetStick, getDominantDirFromAxes_zero,
      timerStep, initTimer]
